import Mathlib

/-!
Shallow embedding of the OWASP Top 10 training platform's gamification,
module-unlock and account-lockout logic, translated from
gamification_system.py, database_postgresql.py and auth_security.py.
All state touched by these functions is per user (every SQL query filters
on user_id), so the embedding models the rows belonging to one user and
passes them explicitly.  Calendar dates are modelled as integers (day
numbers); the float streak multipliers 1.0/1.1/1.2/1.3/1.5 are modelled
as exact rational pairs (numerator, denominator 10), which agrees with
Python's int(x * multiplier) truncation on the small integer ranges the
code produces.
-/

/-- One row of the activity_completions table (columns relevant to the
logic: module_id, activity_type, score, time_spent, xp_earned). -/
structure Completion where
  moduleId : String
  activityType : String
  score : Nat
  timeSpent : Nat
  xpEarned : Nat
deriving DecidableEq, Repr

/-- One completed row of the legacy learning_activities table
(completed_at IS NOT NULL); only module_id and activity_type matter to
the completion policy. -/
structure LegacyActivity where
  moduleId : String
  activityType : String
deriving DecidableEq, Repr

/-- One row of user_assessment_attempts (is_completed flag and
score_percentage). -/
structure AssessmentAttempt where
  moduleId : String
  isCompleted : Bool
  scorePercentage : Nat
deriving DecidableEq, Repr

/-- The per-user row of the user_gamification table. -/
structure GamRow where
  level : Nat
  currXp : Nat
  totalXp : Nat
  streak : Nat
  maxStreak : Nat
  lastActivityDate : Option Int
deriving DecidableEq, Repr

/-- The slice of database state belonging to one user: the optional
user_gamification row, the activity_completions log, the
module_completions rows (module ids), the earned achievement names
(user_achievements_new), the user_progress rows (module id, xp_earned),
the legacy learning_activities rows, the legacy users.xp column and the
user_assessment_attempts rows. -/
structure GamState where
  gam : Option GamRow
  completions : List Completion
  moduleCompletions : List String
  achievements : List String
  userProgress : List (String × Nat)
  legacy : List LegacyActivity
  legacyXp : Nat
  assessments : List AssessmentAttempt
deriving DecidableEq, Repr

/-- The xp_rewards dictionary of ModernGamificationSystem, read with
.get(key, 0) as complete_activity does. -/
def xpRewardsGet (activityType : String) : Nat :=
  if activityType = "documentation" then 75
  else if activityType = "animation" then 50
  else if activityType = "lab" then 100
  else if activityType = "quiz" then 80
  else if activityType = "assessment" then 80
  else if activityType = "module_completion" then 150
  else if activityType = "perfect_score" then 50
  else if activityType = "first_time" then 25
  else if activityType = "streak_bonus" then 15
  else if activityType = "speed_bonus" then 20
  else 0

/-- The level_thresholds list of ModernGamificationSystem, verbatim. -/
def levelThresholds : List Nat :=
  [0, 150, 350, 650, 1100, 1750, 2650, 3850, 5400, 7350, 9750,
   12650, 16100, 20150, 24850]

/-- Descending scan of _calculate_level: with fuel n, tries indices
n-1, n-2, ..., 0 and returns i+1 at the first index i whose threshold
the XP meets; returns 1 when no index is left (unreachable in the
source because threshold 0 always matches, kept for faithfulness). -/
def calcLevelGo (totalXp : Nat) : Nat → Nat
  | 0 => 1
  | i + 1 => if levelThresholds.getD i 0 ≤ totalXp then i + 1 else calcLevelGo totalXp i

/-- ModernGamificationSystem._calculate_level. -/
def calculateLevel (totalXp : Nat) : Nat :=
  calcLevelGo totalXp levelThresholds.length

/-- ModernGamificationSystem._get_streak_multiplier, returning the float
multiplier as an exact fraction (numerator, denominator): 1.5 is 15/10,
1.3 is 13/10, 1.2 is 12/10, 1.1 is 11/10 and 1.0 is 10/10.  The source
walks the streak_multipliers keys in descending order 30, 14, 7, 3. -/
def getStreakMultiplier (streak : Nat) : Nat × Nat :=
  if 30 ≤ streak then (15, 10)
  else if 14 ≤ streak then (13, 10)
  else if 7 ≤ streak then (12, 10)
  else if 3 ≤ streak then (11, 10)
  else (10, 10)

/-- The row inserted by initialize_user: level 1, current_xp 0,
total_xp 0, streak 0, max_streak 0, last_activity_date NULL. -/
def initRow : GamRow :=
  { level := 1, currXp := 0, totalXp := 0, streak := 0, maxStreak := 0,
    lastActivityDate := none }

/-- ModernGamificationSystem.initialize_user: ON CONFLICT DO NOTHING
insert of the default row. -/
def initUser (s : GamState) : GamState :=
  match s.gam with
  | some _ => s
  | none => { s with gam := some initRow }

/-- ModernGamificationSystem._update_user_xp: adds the amount to
total_xp, recomputes the level from the thresholds, and stores
current_xp as the new total minus the threshold of the new level
(0 when the new level is 1). -/
def updateUserXp (r : GamRow) (amount : Nat) : GamRow :=
  let newTotal := r.totalXp + amount
  let newLevel := calculateLevel newTotal
  let levelBase := if 1 < newLevel then levelThresholds.getD (newLevel - 1) 0 else 0
  { r with level := newLevel, currXp := newTotal - levelBase, totalXp := newTotal }

/-- ModernGamificationSystem._update_streak: no-op when the stored
last_activity_date is today; increment when it is yesterday; otherwise
reset to 1.  max_streak becomes the max of the old max and the new
streak, and last_activity_date becomes today. -/
def updateStreak (r : GamRow) (today : Int) : GamRow :=
  if r.lastActivityDate = some today then r
  else
    let newStreak := if r.lastActivityDate = some (today - 1) then r.streak + 1 else 1
    { r with streak := newStreak, maxStreak := max r.maxStreak newStreak,
             lastActivityDate := some today }

/-- Achievement condition predicates as stored in achievements_new
(condition_type plus condition_value). -/
inductive AchCond where
  | activityCount (min : Nat)
  | totalXpCond (min : Nat)
  | activityTypeCount (ty : String) (min : Nat)
  | moduleCount (min : Nat)
  | perfectScore (min : Nat)
  | streakCond (min : Nat)
  | moduleCompletionCond (moduleId : String)
deriving DecidableEq, Repr

/-- One row of the achievements_new catalog. -/
structure Achievement where
  name : String
  xpReward : Nat
  cond : AchCond
deriving DecidableEq, Repr

/-- The fixed achievement catalog inserted by _initialize_achievements,
in source order. -/
def achCatalog : List Achievement :=
  [ { name := "First Steps", xpReward := 50, cond := .activityCount 1 },
    { name := "XP Collector", xpReward := 100, cond := .totalXpCond 1000 },
    { name := "XP Master", xpReward := 200, cond := .totalXpCond 5000 },
    { name := "Bookworm", xpReward := 75, cond := .activityTypeCount "documentation" 5 },
    { name := "Visual Learner", xpReward := 75, cond := .activityTypeCount "animation" 5 },
    { name := "Hands-On Learner", xpReward := 100, cond := .activityTypeCount "lab" 3 },
    { name := "Access Control Expert", xpReward := 150, cond := .moduleCompletionCond "A01" },
    { name := "OWASP Champion", xpReward := 300, cond := .moduleCount 5 },
    { name := "Security Master", xpReward := 500, cond := .moduleCount 10 },
    { name := "Perfectionist", xpReward := 100, cond := .perfectScore 1 },
    { name := "Consistent Learner", xpReward := 150, cond := .streakCond 7 } ]

/-- Count of distinct strings in a list (COUNT(DISTINCT ...)). -/
def distinctCount : List String → Nat
  | [] => 0
  | x :: xs => (if xs.contains x then 0 else 1) + distinctCount xs

/-- The stats row _check_achievements computes with one grouped query
LEFT JOINing activity_completions and module_completions onto the
user_gamification row.  Because the join multiplies activity rows by
module_completions rows and only total_activities and modules_completed
are counted DISTINCT, perfect_scores comes out multiplied by the number
of module_completions rows (when there is at least one of each). -/
structure UserStats where
  totalXp : Nat
  streak : Nat
  maxStreak : Nat
  totalActivities : Nat
  modulesCompleted : Nat
  perfectScores : Nat
deriving DecidableEq, Repr

/-- Stats computation of _check_achievements on the current state. -/
def computeStats (s : GamState) : UserStats :=
  let r := s.gam.getD initRow
  let m := s.moduleCompletions.length
  { totalXp := r.totalXp, streak := r.streak, maxStreak := r.maxStreak,
    totalActivities := s.completions.length,
    modulesCompleted := distinctCount s.moduleCompletions,
    perfectScores :=
      (s.completions.filter (fun c => c.score == 100)).length * max m 1 }

/-- Per-activity-type counts of _check_achievements. -/
def activityTypeCountOf (s : GamState) (ty : String) : Nat :=
  (s.completions.filter (fun c => c.activityType == ty)).length

/-- ModernGamificationSystem._check_achievement_condition. -/
def checkAchCondition (a : Achievement) (st : UserStats) (counts : String → Nat) : Bool :=
  match a.cond with
  | .activityCount m => m ≤ st.totalActivities
  | .totalXpCond m => m ≤ st.totalXp
  | .activityTypeCount ty m => m ≤ counts ty
  | .moduleCount m => m ≤ st.modulesCompleted
  | .perfectScore m => m ≤ st.perfectScores
  | .streakCond m => m ≤ st.maxStreak
  | .moduleCompletionCond _ => false

/-- One iteration of the achievement loop in _check_achievements: the
accumulator carries the user_gamification row, the earned achievement
names and the newly awarded names. -/
def achStep (st : UserStats) (counts : String → Nat)
    (acc : GamRow × List String × List String) (a : Achievement) :
    GamRow × List String × List String :=
  if acc.2.1.contains a.name then acc
  else if checkAchCondition a st counts then
    ((if 0 < a.xpReward then updateUserXp acc.1 a.xpReward else acc.1),
     acc.2.1 ++ [a.name], acc.2.2 ++ [a.name])
  else acc

/-- ModernGamificationSystem._check_achievements: stats are computed
once, then every catalog entry that is not yet earned and whose
condition holds is awarded (its XP through _update_user_xp).  Returns
the updated state and the list of newly awarded achievement names. -/
def checkAchievements (s : GamState) : GamState × List String :=
  let st := computeStats s
  let res := achCatalog.foldl (achStep st (activityTypeCountOf s))
    (s.gam.getD initRow, s.achievements, [])
  ({ s with gam := some res.1, achievements := res.2.1 }, res.2.2)

/-- Result dictionary of ModernGamificationSystem.complete_activity. -/
structure ActivityResult where
  xpEarned : Nat
  streakMultiplier : Nat × Nat
  levelUp : Bool
  newLevel : Nat
  newAchievements : List String
deriving DecidableEq, Repr

/-- ModernGamificationSystem.complete_activity: initializes the user,
computes base XP from xp_rewards, adds the first-time bonus when no
activity_completions row of this type exists, adds the perfect (or
half for 90+) score bonus, multiplies by the streak multiplier taken
from the stored streak, truncating to an integer; inserts the
completion row, updates XP and level, updates the streak, and checks
achievements. -/
def completeActivity (s0 : GamState) (moduleId activityType : String)
    (score timeSpent : Nat) (today : Int) : GamState × ActivityResult :=
  let s := initUser s0
  let baseXp := xpRewardsGet activityType
  let isFirstTime := (s.completions.filter (fun c => c.activityType == activityType)).length == 0
  let bonusXp :=
    (if isFirstTime then xpRewardsGet "first_time" else 0) +
    (if 100 ≤ score then xpRewardsGet "perfect_score"
     else if 90 ≤ score then xpRewardsGet "perfect_score" / 2 else 0)
  let r := s.gam.getD initRow
  let mult := getStreakMultiplier r.streak
  let totalXp := (baseXp + bonusXp) * mult.1 / mult.2
  let newRow : Completion :=
    { moduleId := moduleId, activityType := activityType, score := score,
      timeSpent := timeSpent, xpEarned := totalXp }
  let s := { s with completions := s.completions ++ [newRow] }
  let r1 := updateUserXp r totalXp
  let r2 := updateStreak r1 today
  let s := { s with gam := some r2 }
  let res := checkAchievements s
  (res.1,
   ({ xpEarned := totalXp, streakMultiplier := mult,
      levelUp := decide (r.level < r1.level), newLevel := r1.level,
      newAchievements := res.2 } : ActivityResult))

/-- ModernGamificationSystem.complete_module: no-op when a
module_completions row exists; otherwise inserts the row, awards the
flat module_completion bonus through _update_user_xp and re-checks
achievements. -/
def completeModule (s : GamState) (moduleId : String) : GamState :=
  if s.moduleCompletions.contains moduleId then s
  else
    let s1 := { s with moduleCompletions := s.moduleCompletions ++ [moduleId] }
    let s2 := { s1 with gam := some (updateUserXp (s1.gam.getD initRow)
      (xpRewardsGet "module_completion")) }
    (checkAchievements s2).1

/-- is_module_completed from database_postgresql.py: a passing (70+)
completed assessment attempt exists AND at least 1 distinct activity
type is recorded, OR at least 2 distinct activity types are recorded,
where the activity count is the max of the modern and legacy tables. -/
def isModuleCompleted (s : GamState) (moduleId : String) : Bool :=
  let assessmentCompleted := s.assessments.any
    (fun a => a.moduleId == moduleId && a.isCompleted && decide (70 ≤ a.scorePercentage))
  let modern := distinctCount
    ((s.completions.filter (fun c => c.moduleId == moduleId)).map (fun c => c.activityType))
  let legacyCount := distinctCount
    ((s.legacy.filter (fun l => l.moduleId == moduleId)).map (fun l => l.activityType))
  let completedActivities := max modern legacyCount
  (assessmentCompleted && decide (1 ≤ completedActivities)) ||
    decide (2 ≤ completedActivities)

/-- The fixed module order of get_next_module_id. -/
def modulesOrder : List String :=
  ["A01", "A02", "A03", "A04", "A05", "A06", "A07", "A08", "A09", "A10"]

/-- get_next_module_id from database_postgresql.py: the successor of the
module in the fixed order, None for the last module or an unknown id. -/
def getNextModuleId (currentModuleId : String) : Option String :=
  match modulesOrder.indexOf? currentModuleId with
  | some i =>
      if i + 1 < modulesOrder.length then some (modulesOrder.getD (i + 1) "")
      else none
  | none => none

/-- unlock_next_module from database_postgresql.py: when a next module
exists, returns it, inserting a zero-XP user_progress row for it unless
one is already present. -/
def unlockNextModule (s : GamState) (currentModuleId : String) :
    GamState × Option String :=
  match getNextModuleId currentModuleId with
  | none => (s, none)
  | some nxt =>
      if s.userProgress.any (fun p => p.1 == nxt) then (s, some nxt)
      else ({ s with userProgress := s.userProgress ++ [(nxt, 0)] }, some nxt)

/-- Predicate: a user_progress row for the module exists (the module is
unlocked). -/
def moduleUnlocked (s : GamState) (moduleId : String) : Bool :=
  s.userProgress.any (fun p => p.1 == moduleId)

/-- get_activity_xp from database_postgresql.py (legacy XP table). -/
def getActivityXp (activityType : String) : Nat :=
  if activityType = "documentation" then 50
  else if activityType = "animation" then 25
  else if activityType = "lab" then 75
  else if activityType = "quiz" then 50
  else if activityType = "assessment" then 50
  else 25

/-- Recording phase of complete_learning_activity: the modern
gamification completion followed by the guarded legacy insert (row plus
users.xp update when no completed legacy row of this type exists). -/
def recordPhase (s : GamState) (moduleId activityType : String)
    (score timeSpent : Nat) (today : Int) : GamState :=
  let s1 := (completeActivity s moduleId activityType score timeSpent today).1
  if s1.legacy.any (fun l => l.moduleId == moduleId && l.activityType == activityType) then s1
  else { s1 with legacy := s1.legacy ++ [{ moduleId := moduleId, activityType := activityType }],
                 legacyXp := s1.legacyXp + getActivityXp activityType }

/-- complete_learning_activity from database_postgresql.py: records the
activity in both systems, then, when is_module_completed now holds,
runs complete_module and unlock_next_module. -/
def completeLearningActivity (s : GamState) (moduleId activityType : String)
    (score timeSpent : Nat) (today : Int) : GamState :=
  let s1 := recordPhase s moduleId activityType score timeSpent today
  if isModuleCompleted s1 moduleId then
    (unlockNextModule (completeModule s1 moduleId) moduleId).1
  else s1

/-- Empty per-user state of a brand-new user: no gamification row, no
recorded activity of any kind. -/
def emptyState : GamState :=
  { gam := none, completions := [], moduleCompletions := [], achievements := [],
    userProgress := [], legacy := [], legacyXp := 0, assessments := [] }

/-- Per-user lockout columns of the users table (failed_login_attempts,
account_locked_until), with time in minutes. -/
structure AuthState where
  failedAttempts : Nat
  lockedUntil : Option Int
deriving DecidableEq, Repr

/-- AuthSecurity.MAX_LOGIN_ATTEMPTS. -/
def maxLoginAttempts : Nat := 5

/-- AuthSecurity.LOCKOUT_DURATION_MINUTES. -/
def lockoutDurationMinutes : Int := 30

/-- The reset lockout state: zero failed attempts, no lockout. -/
def authReset : AuthState := { failedAttempts := 0, lockedUntil := none }

/-- AuthSecurity.handle_failed_login: increments the failed-attempt
counter and, once it reaches MAX_LOGIN_ATTEMPTS, sets
account_locked_until to now plus the lockout duration. -/
def handleFailedLogin (st : AuthState) (now : Int) : AuthState :=
  let fa := st.failedAttempts + 1
  let st1 : AuthState := { st with failedAttempts := fa }
  if maxLoginAttempts ≤ fa then
    { st1 with lockedUntil := some (now + lockoutDurationMinutes) }
  else st1

/-- AuthSecurity.check_account_lockout: reports locked while now is
before account_locked_until; when the lockout has expired it resets the
counter and clears the lockout; otherwise it leaves the row alone.
Returns (new state, is_locked, locked_until). -/
def checkAccountLockout (st : AuthState) (now : Int) :
    AuthState × Bool × Option Int :=
  match st.lockedUntil with
  | some lockedUntil =>
      if now < lockedUntil then (st, true, some lockedUntil)
      else (authReset, false, none)
  | none => (st, false, none)

/-- AuthSecurity.handle_successful_login: resets the failed-attempt
counter and clears the lockout. -/
def handleSuccessfulLogin (_st : AuthState) : AuthState := authReset

example : calculateLevel 150 = 2 := by decide
example : calculateLevel 149 = 1 := by decide
example : calculateLevel 24850 = 15 := by decide
example : getNextModuleId "A01" = some "A02" := by decide
example : getNextModuleId "A10" = none := by decide
example : (completeActivity emptyState "A01" "documentation" 100 0 0).2.xpEarned = 150 := by decide

/-! Helper lemmas about the level scan. -/

theorem calcLevelGo_pos (xp n : Nat) : 1 ≤ calcLevelGo xp n := by
  induction n with
  | zero => simp [calcLevelGo]
  | succ k ih =>
    simp only [calcLevelGo]
    split
    · omega
    · exact ih

theorem calcLevelGo_le (xp n : Nat) : calcLevelGo xp n ≤ max n 1 := by
  induction n with
  | zero => simp [calcLevelGo]
  | succ k ih =>
    simp only [calcLevelGo]
    split
    · omega
    · omega

theorem calcLevelGo_threshold_le (xp n : Nat) :
    levelThresholds.getD (calcLevelGo xp n - 1) 0 ≤ xp := by
  induction n with
  | zero => simp [calcLevelGo, levelThresholds]
  | succ k ih =>
    simp only [calcLevelGo]
    split
    · next h => simpa using h
    · exact ih

theorem calcLevelGo_maximal (xp n : Nat) :
    ∀ j, j < n → levelThresholds.getD j 0 ≤ xp → j < calcLevelGo xp n := by
  induction n with
  | zero => intro j hj _; omega
  | succ k ih =>
    intro j hj hle
    simp only [calcLevelGo]
    split
    · omega
    · next h =>
      have hne : j ≠ k := fun e => h (e ▸ hle)
      exact ih j (by omega) hle

theorem calcLevelGo_mono (x y n : Nat) (hxy : x ≤ y) :
    calcLevelGo x n ≤ calcLevelGo y n := by
  induction n with
  | zero => simp [calcLevelGo]
  | succ k ih =>
    simp only [calcLevelGo]
    split
    · next h => rw [if_pos (le_trans h hxy)]
    · split
      · have := calcLevelGo_le x k; omega
      · exact ih

theorem calculateLevel_eq (xp : Nat) : calculateLevel xp = calcLevelGo xp 15 := rfl

/-! Helper lemmas about which fields the gamification operations touch. -/

theorem initUser_completions (s : GamState) : (initUser s).completions = s.completions := by
  cases h : s.gam <;> simp [initUser, h]

theorem initUser_userProgress (s : GamState) : (initUser s).userProgress = s.userProgress := by
  cases h : s.gam <;> simp [initUser, h]

theorem initUser_legacy (s : GamState) : (initUser s).legacy = s.legacy := by
  cases h : s.gam <;> simp [initUser, h]

theorem initUser_assessments (s : GamState) : (initUser s).assessments = s.assessments := by
  cases h : s.gam <;> simp [initUser, h]

theorem updateUserXp_streak (r : GamRow) (a : Nat) : (updateUserXp r a).streak = r.streak := rfl

theorem updateUserXp_maxStreak (r : GamRow) (a : Nat) :
    (updateUserXp r a).maxStreak = r.maxStreak := rfl

theorem updateUserXp_lastActivityDate (r : GamRow) (a : Nat) :
    (updateUserXp r a).lastActivityDate = r.lastActivityDate := rfl

theorem achStep_streak (st : UserStats) (counts : String → Nat)
    (acc : GamRow × List String × List String) (a : Achievement) :
    (achStep st counts acc a).1.streak = acc.1.streak ∧
    (achStep st counts acc a).1.maxStreak = acc.1.maxStreak := by
  simp only [achStep]
  split
  · exact ⟨rfl, rfl⟩
  · split
    · split <;> exact ⟨rfl, rfl⟩
    · exact ⟨rfl, rfl⟩

theorem achFold_streak (st : UserStats) (counts : String → Nat) :
    ∀ (l : List Achievement) (acc : GamRow × List String × List String),
      (l.foldl (achStep st counts) acc).1.streak = acc.1.streak ∧
      (l.foldl (achStep st counts) acc).1.maxStreak = acc.1.maxStreak := by
  intro l
  induction l with
  | nil => intro acc; exact ⟨rfl, rfl⟩
  | cons a t ih =>
    intro acc
    rw [List.foldl_cons]
    refine ⟨?_, ?_⟩
    · rw [(ih _).1, (achStep_streak st counts acc a).1]
    · rw [(ih _).2, (achStep_streak st counts acc a).2]

/-- C3: for every user and every activity completion, the streak update
satisfies: when the stored last-activity date is today the whole row
(streak, max_streak, last-activity date) is unchanged; when it is
yesterday (today minus one day) the streak is incremented by exactly 1;
in every other case, including no prior activity, the streak is set
to 1. -/
theorem C3_streak_update (r : GamRow) (today : Int) :
    (r.lastActivityDate = some today → updateStreak r today = r) ∧
    (r.lastActivityDate = some (today - 1) →
      (updateStreak r today).streak = r.streak + 1 ∧
      (updateStreak r today).maxStreak = max r.maxStreak (r.streak + 1) ∧
      (updateStreak r today).lastActivityDate = some today) ∧
    (r.lastActivityDate ≠ some today → r.lastActivityDate ≠ some (today - 1) →
      (updateStreak r today).streak = 1 ∧
      (updateStreak r today).maxStreak = max r.maxStreak 1 ∧
      (updateStreak r today).lastActivityDate = some today) := by
  refine ⟨?_, ?_, ?_⟩
  · intro h
    simp [updateStreak, h]
  · intro h
    have hne : r.lastActivityDate ≠ some today := by
      rw [h]
      simp only [ne_eq, Option.some.injEq]
      omega
    simp [updateStreak, hne, h]
  · intro h1 h2
    simp [updateStreak, h1, h2]

/-- Concrete gamification row for the C3 witness: streak 5, last
activity on day 9. -/
def c3row : GamRow :=
  { level := 1, currXp := 0, totalXp := 0, streak := 5, maxStreak := 5,
    lastActivityDate := some 9 }

/-- Witness for C3 at a concrete row and date: last activity on day 9,
new activity on day 10 extends the streak from 5 to 6. -/
theorem C3_streak_update_witness :
    c3row.lastActivityDate = some ((10 : Int) - 1) ∧
    (updateStreak c3row 10).streak = c3row.streak + 1 ∧
    (updateStreak c3row 10).maxStreak = max c3row.maxStreak (c3row.streak + 1) ∧
    (updateStreak c3row 10).lastActivityDate = some 10 :=
  ⟨by decide, (C3_streak_update c3row 10).2.1 (by decide)⟩

/-- C4 counterexample: the level threshold table does not have 14
entries; it has 15. -/
theorem C4_fourteen_entries_false : ¬ levelThresholds.length = 14 := by decide

/-- C4 amended: the threshold table is a fixed strictly ascending list
of 15 entries; the level of a total-XP value is the largest 1-based
index whose threshold the value meets or exceeds; and after every XP
update the stored current-level XP is the total XP minus the table
threshold of the computed level. -/
theorem C4_level_table :
    levelThresholds.length = 15 ∧
    levelThresholds.Pairwise (· < ·) ∧
    (∀ xp : Nat,
      1 ≤ calculateLevel xp ∧ calculateLevel xp ≤ 15 ∧
      levelThresholds.getD (calculateLevel xp - 1) 0 ≤ xp ∧
      (∀ j, j < 15 → levelThresholds.getD j 0 ≤ xp → j < calculateLevel xp)) ∧
    (∀ (r : GamRow) (amount : Nat),
      (updateUserXp r amount).currXp =
        (updateUserXp r amount).totalXp -
          levelThresholds.getD ((updateUserXp r amount).level - 1) 0) := by
  refine ⟨by decide, by decide, ?_, ?_⟩
  · intro xp
    refine ⟨calcLevelGo_pos xp 15, ?_, calcLevelGo_threshold_le xp 15, ?_⟩
    · have := calcLevelGo_le xp 15
      rw [calculateLevel_eq]
      omega
    · intro j hj hle
      rw [calculateLevel_eq]
      exact calcLevelGo_maximal xp 15 j hj hle
  · intro r amount
    by_cases h : 1 < calculateLevel (r.totalXp + amount)
    · simp [updateUserXp, h]
    · have h1 := calcLevelGo_pos (r.totalXp + amount) 15
      rw [← calculateLevel_eq] at h1
      have he : calculateLevel (r.totalXp + amount) = 1 := by omega
      simp [updateUserXp, he, levelThresholds]

/-- Witness for C4's amended statement at total XP 500: level 4,
threshold 350 met, every threshold index at or above level 4 exceeds
500, and an update landing on 500 stores current XP 150. -/
theorem C4_level_table_witness :
    1 ≤ calculateLevel 500 ∧ calculateLevel 500 ≤ 15 ∧
    levelThresholds.getD (calculateLevel 500 - 1) 0 ≤ 500 ∧
    (2 < 15 → levelThresholds.getD 2 0 ≤ 500 → 2 < calculateLevel 500) ∧
    (updateUserXp initRow 500).currXp =
      (updateUserXp initRow 500).totalXp -
        levelThresholds.getD ((updateUserXp initRow 500).level - 1) 0 :=
  ⟨(C4_level_table.2.2.1 500).1, (C4_level_table.2.2.1 500).2.1,
   (C4_level_table.2.2.1 500).2.2.1,
   fun h1 h2 => (C4_level_table.2.2.1 500).2.2.2 2 h1 h2,
   C4_level_table.2.2.2 initRow 500⟩

/-- C7: the level function is monotone in total XP, every application
of _update_user_xp stores the level computed from the new total, and
therefore a stored level that is consistent with the stored total never
decreases under an XP award. -/
theorem C7_level_monotone :
    (∀ x y : Nat, x ≤ y → calculateLevel x ≤ calculateLevel y) ∧
    (∀ (r : GamRow) (amount : Nat),
      (updateUserXp r amount).level = calculateLevel ((updateUserXp r amount).totalXp)) ∧
    (∀ (r : GamRow) (amount : Nat),
      r.level = calculateLevel r.totalXp → r.level ≤ (updateUserXp r amount).level) := by
  have hmono : ∀ x y : Nat, x ≤ y → calculateLevel x ≤ calculateLevel y := by
    intro x y h
    rw [calculateLevel_eq, calculateLevel_eq]
    exact calcLevelGo_mono x y 15 h
  refine ⟨hmono, fun r amount => rfl, ?_⟩
  intro r amount h
  rw [h]
  exact hmono r.totalXp (r.totalXp + amount) (by omega)

/-- Witness for C7 at concrete values: 100 is at most 350, the levels
compare, and an XP award of 500 on the fresh row does not lower the
level. -/
theorem C7_level_monotone_witness :
    ((100 : Nat) ≤ 350 ∧ calculateLevel 100 ≤ calculateLevel 350) ∧
    (initRow.level = calculateLevel initRow.totalXp ∧
      initRow.level ≤ (updateUserXp initRow 500).level) :=
  ⟨⟨by decide, C7_level_monotone.1 100 350 (by decide)⟩,
   ⟨by decide, C7_level_monotone.2.2 initRow 500 (by decide)⟩⟩

/-- Invariant of C9: the stored max streak bounds the current streak. -/
def streakInv (r : GamRow) : Prop := r.streak ≤ r.maxStreak

instance (r : GamRow) : Decidable (streakInv r) :=
  inferInstanceAs (Decidable (r.streak ≤ r.maxStreak))

theorem updateStreak_inv (r : GamRow) (d : Int) (h : streakInv r) :
    streakInv (updateStreak r d) := by
  by_cases hd : r.lastActivityDate = some d
  · simpa [updateStreak, hd] using h
  · simp [updateStreak, hd, streakInv]

theorem checkAchievements_inv (s : GamState)
    (h : streakInv (s.gam.getD initRow)) :
    streakInv (((checkAchievements s).1).gam.getD initRow) := by
  have hf := achFold_streak (computeStats s) (activityTypeCountOf s) achCatalog
    (s.gam.getD initRow, s.achievements, [])
  simp only [checkAchievements, Option.getD_some, streakInv] at *
  rw [hf.1, hf.2]
  exact h

/-- C9: the invariant max_streak at least streak holds for the row
inserted at initialization (both fields 0), is preserved by the streak
update (the new max is the max of the old max and the new streak), is
preserved by every XP update (which does not write the streak fields),
and is preserved across a whole complete_activity call, the only code
path that writes these fields. -/
theorem C9_max_streak_invariant :
    (initRow.streak = 0 ∧ initRow.maxStreak = 0 ∧ streakInv initRow) ∧
    (∀ (r : GamRow) (d : Int), streakInv r → streakInv (updateStreak r d)) ∧
    (∀ (r : GamRow) (a : Nat), streakInv r → streakInv (updateUserXp r a)) ∧
    (∀ (s : GamState) (mid ty : String) (sc t : Nat) (d : Int),
      streakInv ((initUser s).gam.getD initRow) →
      streakInv (((completeActivity s mid ty sc t d).1).gam.getD initRow)) := by
  refine ⟨⟨rfl, rfl, by decide⟩, updateStreak_inv, ?_, ?_⟩
  · intro r a h
    simpa [streakInv, updateUserXp_streak, updateUserXp_maxStreak] using h
  · intro s mid ty sc t d h
    simp only [completeActivity]
    apply checkAchievements_inv
    simp only [Option.getD_some]
    apply updateStreak_inv
    simpa [streakInv, updateUserXp_streak, updateUserXp_maxStreak] using h

/-- Witness for C9: the invariant holds for a concrete row and is kept
by a concrete streak update and a concrete complete_activity call on a
fresh user. -/
theorem C9_max_streak_invariant_witness :
    streakInv initRow ∧ streakInv (updateStreak c3row 10) ∧
    streakInv (((completeActivity emptyState "A01" "lab" 100 0 0).1).gam.getD initRow) :=
  ⟨C9_max_streak_invariant.1.2.2,
   C9_max_streak_invariant.2.1 c3row 10 (by decide),
   C9_max_streak_invariant.2.2.2 emptyState "A01" "lab" 100 0 0 (by decide)⟩

/-- C8: starting from a reset account, the first four failed logins
leave the account unlocked; the fifth failure locks it until 30 minutes
after that failure; the lockout check reports locked exactly while the
current time is before that timestamp; an expired lockout check or a
successful login resets the failed-attempt counter to 0 and clears the
lockout. -/
theorem C8_account_lockout (t1 t2 t3 t4 t5 now : Int) :
    (handleFailedLogin (handleFailedLogin (handleFailedLogin
      (handleFailedLogin authReset t1) t2) t3) t4).lockedUntil = none ∧
    (checkAccountLockout (handleFailedLogin (handleFailedLogin (handleFailedLogin
      (handleFailedLogin authReset t1) t2) t3) t4) now).2.1 = false ∧
    (handleFailedLogin (handleFailedLogin (handleFailedLogin (handleFailedLogin
      (handleFailedLogin authReset t1) t2) t3) t4) t5).failedAttempts = 5 ∧
    (handleFailedLogin (handleFailedLogin (handleFailedLogin (handleFailedLogin
      (handleFailedLogin authReset t1) t2) t3) t4) t5).lockedUntil = some (t5 + 30) ∧
    ((checkAccountLockout (handleFailedLogin (handleFailedLogin (handleFailedLogin
      (handleFailedLogin (handleFailedLogin authReset t1) t2) t3) t4) t5) now).2.1 = true ↔
      now < t5 + 30) ∧
    (t5 + 30 ≤ now →
      (checkAccountLockout (handleFailedLogin (handleFailedLogin (handleFailedLogin
        (handleFailedLogin (handleFailedLogin authReset t1) t2) t3) t4) t5) now).1 = authReset) ∧
    handleSuccessfulLogin (handleFailedLogin (handleFailedLogin (handleFailedLogin
      (handleFailedLogin (handleFailedLogin authReset t1) t2) t3) t4) t5) = authReset := by
  have h4 : handleFailedLogin (handleFailedLogin (handleFailedLogin
      (handleFailedLogin authReset t1) t2) t3) t4 =
      { failedAttempts := 4, lockedUntil := none } := by
    simp [handleFailedLogin, authReset, maxLoginAttempts]
  have h5 : handleFailedLogin { failedAttempts := 4, lockedUntil := none } t5 =
      ({ failedAttempts := 5, lockedUntil := some (t5 + 30) } : AuthState) := by
    simp [handleFailedLogin, maxLoginAttempts, lockoutDurationMinutes]
  rw [h4, h5]
  refine ⟨rfl, rfl, rfl, rfl, ?_, ?_, rfl⟩
  · simp only [checkAccountLockout]
    split
    · simp_all
    · simp_all
  · intro h
    simp [checkAccountLockout, h, not_lt.mpr h]

/-- Witness for C8 at concrete failure times 1..5 and two check times:
at time 10 the account reports locked (10 is before 35), and at time 40
the check resets the account. -/
theorem C8_account_lockout_witness :
    ((checkAccountLockout (handleFailedLogin (handleFailedLogin (handleFailedLogin
      (handleFailedLogin (handleFailedLogin authReset 1) 2) 3) 4) 5) 10).2.1 = true ↔
      (10 : Int) < 5 + 30) ∧
    ((5 : Int) + 30 ≤ 40) ∧
    (checkAccountLockout (handleFailedLogin (handleFailedLogin (handleFailedLogin
      (handleFailedLogin (handleFailedLogin authReset 1) 2) 3) 4) 5) 40).1 = authReset :=
  ⟨(C8_account_lockout 1 2 3 4 5 10).2.2.2.2.1, by decide,
   (C8_account_lockout 1 2 3 4 5 40).2.2.2.2.2.1 (by decide)⟩

theorem completeActivity_xpEarned (s : GamState) (mid ty : String)
    (score t : Nat) (d : Int) :
    (completeActivity s mid ty score t d).2.xpEarned =
      (xpRewardsGet ty +
        ((if s.completions.filter (fun c => c.activityType == ty) = [] then 25 else 0) +
         (if 100 ≤ score then 50 else if 90 ≤ score then 25 else 0))) *
        (getStreakMultiplier ((initUser s).gam.getD initRow).streak).1 /
        (getStreakMultiplier ((initUser s).gam.getD initRow).streak).2 := by
  have h1 : xpRewardsGet "first_time" = 25 := rfl
  have h2 : xpRewardsGet "perfect_score" = 50 := rfl
  simp only [completeActivity, initUser_completions, h1, h2, Nat.reduceDiv,
    List.length_eq_zero, beq_iff_eq]

theorem completeActivity_completions (s : GamState) (mid ty : String)
    (score t : Nat) (d : Int) :
    ((completeActivity s mid ty score t d).1).completions =
      s.completions ++
        [{ moduleId := mid, activityType := ty, score := score, timeSpent := t,
           xpEarned := (completeActivity s mid ty score t d).2.xpEarned }] := by
  simp only [completeActivity, checkAchievements, initUser_completions]

theorem completeActivity_userProgress (s : GamState) (mid ty : String)
    (score t : Nat) (d : Int) :
    ((completeActivity s mid ty score t d).1).userProgress = s.userProgress := by
  simp only [completeActivity, checkAchievements, initUser_userProgress]

theorem completeActivity_legacy (s : GamState) (mid ty : String)
    (score t : Nat) (d : Int) :
    ((completeActivity s mid ty score t d).1).legacy = s.legacy := by
  simp only [completeActivity, checkAchievements, initUser_legacy]

theorem completeActivity_assessments (s : GamState) (mid ty : String)
    (score t : Nat) (d : Int) :
    ((completeActivity s mid ty score t d).1).assessments = s.assessments := by
  simp only [completeActivity, checkAchievements, initUser_assessments]

theorem completeActivity_streak_fields (s : GamState) (mid ty : String)
    (score t : Nat) (d : Int) :
    (((completeActivity s mid ty score t d).1).gam.getD initRow).streak =
      (updateStreak (updateUserXp ((initUser s).gam.getD initRow)
        ((completeActivity s mid ty score t d).2.xpEarned)) d).streak := by
  simp only [completeActivity, checkAchievements, Option.getD_some]
  exact (achFold_streak _ _ achCatalog _).1

theorem completeModule_userProgress (s : GamState) (m : String) :
    (completeModule s m).userProgress = s.userProgress := by
  unfold completeModule
  split
  · rfl
  · rfl

theorem completeModule_assessments (s : GamState) (m : String) :
    (completeModule s m).assessments = s.assessments := by
  unfold completeModule
  split
  · rfl
  · rfl

theorem recordPhase_userProgress (s : GamState) (mid ty : String)
    (score t : Nat) (d : Int) :
    (recordPhase s mid ty score t d).userProgress = s.userProgress := by
  simp only [recordPhase]
  split
  · exact completeActivity_userProgress s mid ty score t d
  · exact completeActivity_userProgress s mid ty score t d

/-- C1: for every user state and module with a successor in the fixed
order A01..A10, a complete_learning_activity call leaves the successor
unlocked exactly when it already was unlocked or the module's
completion policy (is_module_completed over the state with the new
activity recorded: passing assessment plus at least one activity, or at
least two distinct activities) evaluates true; and when the policy
holds and the successor was not yet unlocked, a zero-XP user_progress
row for it is inserted. -/
theorem C1_unlock_iff (s : GamState) (mid ty : String) (score t : Nat)
    (d : Int) (nxt : String) (h : getNextModuleId mid = some nxt) :
    (moduleUnlocked (completeLearningActivity s mid ty score t d) nxt = true ↔
      (moduleUnlocked s nxt = true ∨
        isModuleCompleted (recordPhase s mid ty score t d) mid = true)) ∧
    (isModuleCompleted (recordPhase s mid ty score t d) mid = true →
      moduleUnlocked s nxt = false →
      (nxt, 0) ∈ (completeLearningActivity s mid ty score t d).userProgress) := by
  have hrec : (recordPhase s mid ty score t d).userProgress = s.userProgress :=
    recordPhase_userProgress s mid ty score t d
  simp only [completeLearningActivity]
  by_cases hC : isModuleCompleted (recordPhase s mid ty score t d) mid = true
  · rw [if_pos hC]
    have hcm : (completeModule (recordPhase s mid ty score t d) mid).userProgress =
        s.userProgress := by
      rw [completeModule_userProgress, hrec]
    simp only [unlockNextModule, h]
    by_cases hU : moduleUnlocked s nxt = true
    · have : (completeModule (recordPhase s mid ty score t d) mid).userProgress.any
          (fun p => p.1 == nxt) = true := by
        rw [hcm]; exact hU
      rw [if_pos this]
      constructor
      · simp only [moduleUnlocked, hcm]
        constructor
        · intro _; exact Or.inl hU
        · intro _; exact hU
      · intro _ hfalse
        rw [hU] at hfalse
        exact absurd hfalse (by simp)
    · have hU' : moduleUnlocked s nxt = false := by
        cases hb : moduleUnlocked s nxt
        · rfl
        · exact absurd hb hU
      have hany : (completeModule (recordPhase s mid ty score t d) mid).userProgress.any
          (fun p => p.1 == nxt) = false := by
        rw [hcm]; exact hU'
      rw [if_neg (by rw [hany]; simp)]
      constructor
      · simp only [moduleUnlocked, List.any_append, hcm]
        constructor
        · intro _; exact Or.inr hC
        · intro _
          simp [hU']
      · intro _ _
        simp [hcm]
  · rw [if_neg hC]
    have hmu : moduleUnlocked (recordPhase s mid ty score t d) nxt = moduleUnlocked s nxt := by
      simp only [moduleUnlocked, hrec]
    constructor
    · rw [hmu]
      constructor
      · intro hh; exact Or.inl hh
      · intro hh
        rcases hh with hh | hh
        · exact hh
        · exact absurd hh hC
    · intro hh; exact absurd hh hC

/-- Concrete state for the C1 witness: one documentation completion
already recorded for A01, so that a lab completion makes two distinct
activity types and satisfies the completion policy. -/
def c1state : GamState :=
  { emptyState with
    completions := [{ moduleId := "A01", activityType := "documentation",
                      score := 100, timeSpent := 0, xpEarned := 150 }] }

/-- Witness for C1: from a state with a documentation completion for
A01, completing a lab for A01 satisfies the policy and inserts the
zero-XP user_progress row for A02. -/
theorem C1_unlock_iff_witness :
    getNextModuleId "A01" = some "A02" ∧
    isModuleCompleted (recordPhase c1state "A01" "lab" 50 0 0) "A01" = true ∧
    moduleUnlocked c1state "A02" = false ∧
    ("A02", 0) ∈ (completeLearningActivity c1state "A01" "lab" 50 0 0).userProgress :=
  ⟨by decide, by decide, by decide,
   (C1_unlock_iff c1state "A01" "lab" 50 0 0 "A02" (by decide)).2 (by decide) (by decide)⟩

/-- C2 counterexample: for the new-user scenario (zero recorded
activity, one documentation completion with score 100) the stored level
afterwards is not 1: the 150 XP awarded already meets the level-2
threshold of 150. -/
theorem C2_level_still_one_false :
    ¬ (((completeActivity emptyState "A01" "documentation" 100 0 0).1).gam.getD
        initRow).level = 1 := by decide

/-- C2 amended: the scenario awards exactly base documentation XP (75)
plus the first-time bonus (25) plus the perfect-score bonus (50), that
is 150 XP; because 150 meets the level-2 threshold (table entry 150)
the user's level afterwards is 2, not 1 (achievement bonuses First
Steps and Perfectionist then raise total XP to 300, still level 2);
and module A02 is not unlocked, since only one activity type is
recorded for A01. -/
theorem C2_new_user_scenario :
    (completeActivity emptyState "A01" "documentation" 100 0 0).2.xpEarned =
      xpRewardsGet "documentation" + xpRewardsGet "first_time" +
        xpRewardsGet "perfect_score" ∧
    (completeActivity emptyState "A01" "documentation" 100 0 0).2.xpEarned = 150 ∧
    levelThresholds.getD 1 0 = 150 ∧
    (((completeActivity emptyState "A01" "documentation" 100 0 0).1).gam.getD
      initRow).level = 2 ∧
    (((completeActivity emptyState "A01" "documentation" 100 0 0).1).gam.getD
      initRow).totalXp = 300 ∧
    ((completeActivity emptyState "A01" "documentation" 100 0 0).1).achievements =
      ["First Steps", "Perfectionist"] ∧
    isModuleCompleted (recordPhase emptyState "A01" "documentation" 100 0 0) "A01" =
      false ∧
    moduleUnlocked (completeLearningActivity emptyState "A01" "documentation" 100 0 0)
      "A02" = false := by decide

/-- C5: the XP awarded by complete_activity is exactly the base XP of
the activity type, plus 25 when no prior completion of that type is
recorded, plus 50 for a score of 100 or more (25 for 90 or more), the
sum multiplied by the streak multiplier of the stored streak and
truncated; the multiplier thresholds are 3/7/14/30 days giving factors
11/10, 12/10, 13/10 and 15/10 (and 10/10 below 3).  Determinism in
(activity type, score, time spent, history, streak) is intrinsic: the
award is this function of those inputs alone. -/
theorem C5_xp_award_formula :
    (∀ (s : GamState) (mid ty : String) (score t : Nat) (d : Int),
      (completeActivity s mid ty score t d).2.xpEarned =
        (xpRewardsGet ty +
          ((if s.completions.filter (fun c => c.activityType == ty) = [] then 25 else 0) +
           (if 100 ≤ score then 50 else if 90 ≤ score then 25 else 0))) *
          (getStreakMultiplier ((initUser s).gam.getD initRow).streak).1 /
          (getStreakMultiplier ((initUser s).gam.getD initRow).streak).2) ∧
    (∀ streak : Nat, getStreakMultiplier streak =
      if 30 ≤ streak then (15, 10)
      else if 14 ≤ streak then (13, 10)
      else if 7 ≤ streak then (12, 10)
      else if 3 ≤ streak then (11, 10)
      else (10, 10)) :=
  ⟨completeActivity_xpEarned, fun _ => rfl⟩

/-- C10: the streak multiplier applied by complete_activity is computed
from the streak stored before the same call's streak update: the
returned multiplier is the one of the pre-update streak, the awarded XP
uses exactly that multiplier, and when the stored last-activity date is
yesterday the stored streak afterwards is the pre-update streak plus
one, so an activity that extends the streak onto a multiplier threshold
does not itself receive the higher multiplier. -/
theorem C10_multiplier_pre_update (s : GamState) (mid ty : String)
    (score t : Nat) (d : Int) :
    (completeActivity s mid ty score t d).2.streakMultiplier =
      getStreakMultiplier ((initUser s).gam.getD initRow).streak ∧
    (completeActivity s mid ty score t d).2.xpEarned =
      (xpRewardsGet ty +
        ((if s.completions.filter (fun c => c.activityType == ty) = [] then 25 else 0) +
         (if 100 ≤ score then 50 else if 90 ≤ score then 25 else 0))) *
        ((completeActivity s mid ty score t d).2.streakMultiplier).1 /
        ((completeActivity s mid ty score t d).2.streakMultiplier).2 ∧
    (((initUser s).gam.getD initRow).lastActivityDate = some (d - 1) →
      (((completeActivity s mid ty score t d).1).gam.getD initRow).streak =
        ((initUser s).gam.getD initRow).streak + 1) := by
  refine ⟨rfl, completeActivity_xpEarned s mid ty score t d, ?_⟩
  intro h
  rw [completeActivity_streak_fields]
  have hlast : (updateUserXp ((initUser s).gam.getD initRow)
      ((completeActivity s mid ty score t d).2.xpEarned)).lastActivityDate =
      ((initUser s).gam.getD initRow).lastActivityDate := rfl
  have hstr : (updateUserXp ((initUser s).gam.getD initRow)
      ((completeActivity s mid ty score t d).2.xpEarned)).streak =
      ((initUser s).gam.getD initRow).streak := rfl
  have hne : (updateUserXp ((initUser s).gam.getD initRow)
      ((completeActivity s mid ty score t d).2.xpEarned)).lastActivityDate ≠
      some d := by
    rw [hlast, h]
    simp only [ne_eq, Option.some.injEq]
    omega
  simp [updateStreak, hne, hlast, h, hstr]

/-- Concrete state for the C10 witness: stored streak 2, last activity
on day 4. -/
def c10state : GamState :=
  { emptyState with
    gam := some { level := 1, currXp := 0, totalXp := 0, streak := 2,
                  maxStreak := 2, lastActivityDate := some 4 } }

/-- Witness for C10: on day 5 the stored streak 2 yields multiplier
10/10 for the XP award even though the streak then becomes 3 (the first
multiplier threshold). -/
theorem C10_multiplier_pre_update_witness :
    ((initUser c10state).gam.getD initRow).lastActivityDate = some ((5 : Int) - 1) ∧
    (((completeActivity c10state "A01" "lab" 50 0 5).1).gam.getD initRow).streak =
      ((initUser c10state).gam.getD initRow).streak + 1 ∧
    (completeActivity c10state "A01" "lab" 50 0 5).2.streakMultiplier =
      getStreakMultiplier ((initUser c10state).gam.getD initRow).streak :=
  ⟨by decide,
   (C10_multiplier_pre_update c10state "A01" "lab" 50 0 5).2.2 (by decide),
   (C10_multiplier_pre_update c10state "A01" "lab" 50 0 5).1⟩

/-- C6: the first-time bonus is awarded only when no activity_completions
row of that activity type exists for the user: with a prior completion
of the type on record, the award formula carries no 25-XP first-time
term; every complete_activity call leaves a completion row of its type
behind; hence in a sequential history the second (or any later)
completion of the same type never re-awards the first-time bonus. -/
theorem C6_first_time_once :
    (∀ (s : GamState) (mid ty : String) (score t : Nat) (d : Int),
      (∃ c ∈ s.completions, c.activityType = ty) →
      (completeActivity s mid ty score t d).2.xpEarned =
        (xpRewardsGet ty + (if 100 ≤ score then 50 else if 90 ≤ score then 25 else 0)) *
          (getStreakMultiplier ((initUser s).gam.getD initRow).streak).1 /
          (getStreakMultiplier ((initUser s).gam.getD initRow).streak).2) ∧
    (∀ (s : GamState) (mid ty : String) (score t : Nat) (d : Int),
      ∃ c ∈ ((completeActivity s mid ty score t d).1).completions,
        c.activityType = ty) ∧
    (∀ (s : GamState) (mid ty : String) (score t : Nat) (d : Int)
        (mid2 : String) (score2 t2 : Nat) (d2 : Int),
      (completeActivity ((completeActivity s mid ty score t d).1)
          mid2 ty score2 t2 d2).2.xpEarned =
        (xpRewardsGet ty + (if 100 ≤ score2 then 50 else if 90 ≤ score2 then 25 else 0)) *
          (getStreakMultiplier ((initUser ((completeActivity s mid ty score t d).1)).gam.getD
            initRow).streak).1 /
          (getStreakMultiplier ((initUser ((completeActivity s mid ty score t d).1)).gam.getD
            initRow).streak).2) := by
  have hbonus : ∀ (s : GamState) (mid ty : String) (score t : Nat) (d : Int),
      (∃ c ∈ s.completions, c.activityType = ty) →
      (completeActivity s mid ty score t d).2.xpEarned =
        (xpRewardsGet ty + (if 100 ≤ score then 50 else if 90 ≤ score then 25 else 0)) *
          (getStreakMultiplier ((initUser s).gam.getD initRow).streak).1 /
          (getStreakMultiplier ((initUser s).gam.getD initRow).streak).2 := by
    intro s mid ty score t d hex
    rw [completeActivity_xpEarned]
    obtain ⟨c, hc, hty⟩ := hex
    have hne : s.completions.filter (fun c => c.activityType == ty) ≠ [] := by
      intro hnil
      rw [List.filter_eq_nil_iff] at hnil
      exact hnil c hc (by simp [hty])
    rw [if_neg hne, Nat.zero_add]
  have hmem : ∀ (s : GamState) (mid ty : String) (score t : Nat) (d : Int),
      ∃ c ∈ ((completeActivity s mid ty score t d).1).completions,
        c.activityType = ty := by
    intro s mid ty score t d
    rw [completeActivity_completions]
    exact ⟨_, List.mem_append_right _ (List.mem_singleton_self _), rfl⟩
  refine ⟨hbonus, hmem, ?_⟩
  intro s mid ty score t d mid2 score2 t2 d2
  exact hbonus _ mid2 ty score2 t2 d2 (hmem s mid ty score t d)

/-- Witness for C6: with a documentation completion already on record,
a second documentation completion with score 95 is awarded without the
first-time term. -/
theorem C6_first_time_once_witness :
    (∃ c ∈ c1state.completions, c.activityType = "documentation") ∧
    (completeActivity c1state "A02" "documentation" 95 0 0).2.xpEarned =
      (xpRewardsGet "documentation" +
        (if 100 ≤ 95 then 50 else if 90 ≤ 95 then 25 else 0)) *
        (getStreakMultiplier ((initUser c1state).gam.getD initRow).streak).1 /
        (getStreakMultiplier ((initUser c1state).gam.getD initRow).streak).2 :=
  ⟨by decide, C6_first_time_once.1 c1state "A02" "documentation" 95 0 0 (by decide)⟩
